import Mathlib

/-!
Shallow embedding of `src/model.py` from the Object-Detection-Manga109
repository.

`model.py` wires a configuration object (`args`) into torchvision detection
models: it selects a base architecture, swaps classification heads to a custom
class count, copies threshold values into sub-module fields, and optionally
installs a custom anchor generator.

Modelling conventions:
* Python attribute mutation becomes functional record update.
* `os._exit(1)` and Python's unbound-local-variable failure become `Except`
  error values (`PyExit`).
* IoU/score thresholds and aspect ratios are rationals.
* Printing is a side effect only and is not modelled.
* Tensor contents (the weight/bias initialisation of rebuilt layers) are not
  modelled; the shape-level constructor arguments of each rebuilt layer are.
* The torchvision library itself is out of scope for the spec; its builders are
  modelled as producing a fixed default configuration, recording the `weights`
  argument in a `loaded_weights` field, and only the sub-fields `model.py`
  reads or writes are represented.
-/

/-- The `weights=` argument of a torchvision model builder: the string
`'DEFAULT'` or Python `None`. -/
inductive TorchWeights where
  | DEFAULT
  | noWeights
  deriving DecidableEq, Inhabited

/-- The two ways `model.py` can abort instead of returning a model:
`os._exit(code)` in `set_anchor`, and Python's unbound-local-variable failure
on the variable `model` in `create_model`. -/
inductive PyExit where
  | unboundLocal
  | systemExit (code : Nat)
  deriving DecidableEq, Inhabited

/-- The configuration object produced by the CLI argument parser (which is out
of scope); only the fields `model.py` reads are modelled. -/
structure Args where
  model : String
  backbone : String
  pretrained : Bool
  trainable_backbone_layers : Option Nat
  add_authors : Bool
  custom_anchors : Bool
  box_nms_threshold : Rat
  box_score_threshold : Rat
  box_fg_iou_threshold : Rat
  box_bg_iou_threshold : Rat
  box_detections_per_img : Nat
  rpn_nms_threshold : Rat
  rpn_score_threshold : Rat
  rpn_fg_iou_threshold : Rat
  rpn_bg_iou_threshold : Rat
  size8 : Bool
  size16 : Bool
  size32 : Bool
  size64 : Bool
  size128 : Bool
  size256 : Bool
  size512 : Bool
  ar05 : Bool
  ar1 : Bool
  ar2 : Bool
  deriving DecidableEq, Inhabited

/-- An opaque handle for the RoI pooling sub-module (`box_roi_pool`), which
`model.py` only passes around. -/
structure BoxRoIPool where
  tag : Nat
  deriving DecidableEq, Inhabited

/-- An opaque handle for the box head sub-module (`box_head`), which
`model.py` only passes around. -/
structure BoxHead where
  tag : Nat
  deriving DecidableEq, Inhabited

/-- The box predictor sitting on top of the RoI heads.  `fastRCNNPredictor` is
torchvision's `FastRCNNPredictor(in_channels, num_classes)`, whose `cls_score`
is a `Linear(in_channels, num_classes)` layer.  `fastRCNNPredictorWithAuthor`
is modelled from the spec: it is imported from `custom_roi_heads`, whose source
is not part of the excerpt; per the call site it is built from
`(in_features, n_classes, n_authors)` and exposes a `cls_score` layer with the
same `in_features`. -/
inductive BoxPredictor where
  | fastRCNNPredictor (in_features : Nat) (num_classes : Nat)
  | fastRCNNPredictorWithAuthor (in_features : Nat) (num_classes : Nat) (num_authors : Nat)
  deriving DecidableEq, Inhabited

/-- `cls_score.in_features` of a box predictor. -/
def BoxPredictor.cls_score_in_features : BoxPredictor → Nat
  | .fastRCNNPredictor in_features _ => in_features
  | .fastRCNNPredictorWithAuthor in_features _ _ => in_features

/-- The class count a box predictor was built with. -/
def BoxPredictor.num_classes : BoxPredictor → Nat
  | .fastRCNNPredictor _ num_classes => num_classes
  | .fastRCNNPredictorWithAuthor _ num_classes _ => num_classes

/-- torchvision's `BalancedPositiveNegativeSampler` (`fg_bg_sampler`): only the
two fields `model.py` reads. -/
structure Sampler where
  batch_size_per_image : Nat
  positive_fraction : Rat
  deriving DecidableEq, Inhabited

/-- torchvision's `BoxCoder`: only the `weights` field `model.py` reads. -/
structure BoxCoder where
  weights : List Rat
  deriving DecidableEq, Inhabited

/-- torchvision's `Matcher`.  Its constructor is
`Matcher(high_threshold, low_threshold)`; `model.py` writes the two fields
directly. -/
structure Matcher where
  low_threshold : Rat
  high_threshold : Rat
  deriving DecidableEq, Inhabited

/-- Distinguishes the standard torchvision `RoIHeads` from the author-aware
`CustomRoIHeads` that `create_fasterrcnn` can substitute for it. -/
inductive RoIHeadsKind where
  | torchvisionStandard
  | customAuthor
  deriving DecidableEq, Inhabited

/-- The RoI-heads sub-module.  The fields are those of torchvision's `RoIHeads`
that `model.py` reads or writes; `kind` records whether the value is the
standard torchvision module or the substituted `CustomRoIHeads`. -/
structure RoIHeads where
  kind : RoIHeadsKind
  box_roi_pool : BoxRoIPool
  box_head : BoxHead
  box_predictor : BoxPredictor
  fg_bg_sampler : Sampler
  box_coder : BoxCoder
  proposal_matcher : Matcher
  score_thresh : Rat
  nms_thresh : Rat
  detections_per_img : Nat
  deriving DecidableEq, Inhabited

/-- Modelled from the spec: `CustomRoIHeads` is imported from
`custom_roi_heads`, whose source is not part of the excerpt (the spec:
"The custom author-aware RoI heads component referenced by this code ... is
not present in the excerpt provided").  It is modelled as a `RoIHeads` value
tagged `customAuthor` that stores its constructor arguments in the fields of
the standard RoIHeads layout, with the positional parameter roles taken from
the signature of torchvision's `RoIHeads` (whose matcher is
`Matcher(fg_iou_thresh, bg_iou_thresh)`, i.e. high then low), which the call
site in `create_fasterrcnn` follows. -/
def CustomRoIHeads (box_roi_pool : BoxRoIPool) (box_head : BoxHead)
    (box_predictor : BoxPredictor) (fg_iou_thresh : Rat) (bg_iou_thresh : Rat)
    (batch_size_per_image : Nat) (positive_fraction : Rat)
    (bbox_reg_weights : List Rat) (score_thresh : Rat) (nms_thresh : Rat)
    (detections_per_img : Nat) : RoIHeads :=
  { kind := RoIHeadsKind.customAuthor
    box_roi_pool := box_roi_pool
    box_head := box_head
    box_predictor := box_predictor
    fg_bg_sampler :=
      { batch_size_per_image := batch_size_per_image
        positive_fraction := positive_fraction }
    box_coder := { weights := bbox_reg_weights }
    proposal_matcher :=
      { low_threshold := bg_iou_thresh, high_threshold := fg_iou_thresh }
    score_thresh := score_thresh
    nms_thresh := nms_thresh
    detections_per_img := detections_per_img }

/-- torchvision's `AnchorGenerator`: per-feature-level size tuples and
aspect-ratio tuples. -/
structure AnchorGenerator where
  sizes : List (List Nat)
  aspect_ratios : List (List Rat)
  deriving DecidableEq, Inhabited

/-- torchvision's `AnchorGenerator.num_anchors_per_location`:
`[len(s) * len(a) for s, a in zip(self.sizes, self.aspect_ratios)]`. -/
def AnchorGenerator.num_anchors_per_location (g : AnchorGenerator) : List Nat :=
  (g.sizes.zip g.aspect_ratios).map fun p => p.1.length * p.2.length

/-- torchvision's `RPNHead(in_channels, num_anchors)`: only the constructor
arguments are modelled. -/
structure RPNHead where
  in_channels : Nat
  num_anchors : Nat
  deriving DecidableEq, Inhabited

/-- The region-proposal network: the sub-fields `model.py` reads or writes. -/
structure RPN where
  anchor_generator : AnchorGenerator
  head : RPNHead
  nms_thresh : Rat
  score_thresh : Rat
  proposal_matcher : Matcher
  deriving DecidableEq, Inhabited

/-- A Faster R-CNN model: the sub-modules `model.py` touches, plus
`loaded_weights` and `trainable_backbone_layers` recording the builder
arguments. -/
structure FasterRCNNModel where
  loaded_weights : TorchWeights
  trainable_backbone_layers : Option Nat
  rpn : RPN
  roi_heads : RoIHeads
  deriving DecidableEq, Inhabited

/-- A `Conv2d` layer: only the shape-level constructor arguments. -/
structure Conv2d where
  in_channels : Nat
  out_channels : Nat
  kernel_size : Nat
  stride : Nat
  padding : Nat
  deriving DecidableEq, Inhabited

/-- RetinaNet's classification head: the fields `model.py` reads or writes. -/
structure RetinaNetClassificationHead where
  num_anchors : Nat
  num_classes : Nat
  cls_logits : Conv2d
  deriving DecidableEq, Inhabited

/-- RetinaNet's head. -/
structure RetinaNetHead where
  classification_head : RetinaNetClassificationHead
  deriving DecidableEq, Inhabited

/-- A RetinaNet model: the fields `model.py` touches plus the detection
thresholds of the base model (which `model.py` never writes). -/
structure RetinaNetModel where
  loaded_weights : TorchWeights
  head : RetinaNetHead
  score_thresh : Rat
  nms_thresh : Rat
  deriving DecidableEq, Inhabited

/-- torchvision's `SSDClassificationHead(in_channels, num_anchors,
num_classes)`: it records the class count and builds one
`Conv2d(channels, anchors * num_classes, kernel_size=3, padding=1)` per input
channel count. -/
structure SSDClassificationHead where
  num_classes : Nat
  module_list : List Conv2d
  deriving DecidableEq, Inhabited

/-- The `SSDClassificationHead` constructor (modelled from torchvision, which
is out of scope for the spec). -/
def SSDClassificationHead.build (in_channels : List Nat)
    (num_anchors : List Nat) (num_classes : Nat) : SSDClassificationHead :=
  { num_classes := num_classes
    module_list :=
      (in_channels.zip num_anchors).map fun p =>
        { in_channels := p.1
          out_channels := p.2 * num_classes
          kernel_size := 3
          stride := 1
          padding := 1 } }

/-- SSD's `DefaultBoxGenerator`: only `num_anchors_per_location()`. -/
structure SSDAnchorGen where
  num_anchors_per_location : List Nat
  deriving DecidableEq, Inhabited

/-- SSD's head. -/
structure SSDHead where
  classification_head : SSDClassificationHead
  deriving DecidableEq, Inhabited

/-- An SSD300 model: the fields `model.py` touches plus the detection
thresholds of the base model (which `model.py` never writes). -/
structure SSDModel where
  loaded_weights : TorchWeights
  anchor_generator : SSDAnchorGen
  head : SSDHead
  score_thresh : Rat
  nms_thresh : Rat
  deriving DecidableEq, Inhabited

/-- The value `create_model` returns: one of the three architectures. -/
inductive DetectionModel where
  | fasterrcnn (m : FasterRCNNModel)
  | retinanet (m : RetinaNetModel)
  | ssd (m : SSDModel)
  deriving DecidableEq, Inhabited

/-- The `weights` argument the base torchvision builder of a returned model was
called with. -/
def DetectionModel.loaded_weights : DetectionModel → TorchWeights
  | .fasterrcnn m => m.loaded_weights
  | .retinanet m => m.loaded_weights
  | .ssd m => m.loaded_weights

/-- Modelled from the external torchvision library (out of scope for the spec):
the default RoI heads configuration shared by the Faster R-CNN builders. -/
def defaultRoIHeads : RoIHeads :=
  { kind := RoIHeadsKind.torchvisionStandard
    box_roi_pool := { tag := 0 }
    box_head := { tag := 0 }
    box_predictor := BoxPredictor.fastRCNNPredictor 1024 91
    fg_bg_sampler := { batch_size_per_image := 512, positive_fraction := 1/4 }
    box_coder := { weights := [10, 10, 5, 5] }
    proposal_matcher := { low_threshold := 1/2, high_threshold := 1/2 }
    score_thresh := 1/20
    nms_thresh := 1/2
    detections_per_img := 100 }

/-- Modelled from the external torchvision library: the default RPN
configuration of the ResNet50-FPN Faster R-CNN builders. -/
def defaultFpnRPN : RPN :=
  { anchor_generator :=
      { sizes := [[32], [64], [128], [256], [512]]
        aspect_ratios := List.replicate 5 [1/2, 1, 2] }
    head := { in_channels := 256, num_anchors := 3 }
    nms_thresh := 7/10
    score_thresh := 0
    proposal_matcher := { low_threshold := 3/10, high_threshold := 7/10 } }

/-- Modelled from the external torchvision library: the default RPN
configuration of the MobileNetV3-Large-FPN Faster R-CNN builder. -/
def defaultMobileRPN : RPN :=
  { anchor_generator :=
      { sizes := List.replicate 3 [32, 64, 128, 256, 512]
        aspect_ratios := List.replicate 3 [1/2, 1, 2] }
    head := { in_channels := 256, num_anchors := 15 }
    nms_thresh := 7/10
    score_thresh := 0
    proposal_matcher := { low_threshold := 3/10, high_threshold := 7/10 } }

/-- Modelled from torchvision:
`torchvision.models.detection.fasterrcnn_resnet50_fpn`; the `weights` argument
is recorded in `loaded_weights`. -/
def fasterrcnn_resnet50_fpn (weights : TorchWeights) (tbl : Option Nat) :
    FasterRCNNModel :=
  { loaded_weights := weights
    trainable_backbone_layers := tbl
    rpn := defaultFpnRPN
    roi_heads := defaultRoIHeads }

/-- Modelled from torchvision:
`torchvision.models.detection.fasterrcnn_resnet50_fpn_v2`. -/
def fasterrcnn_resnet50_fpn_v2 (weights : TorchWeights) (tbl : Option Nat) :
    FasterRCNNModel :=
  { loaded_weights := weights
    trainable_backbone_layers := tbl
    rpn := defaultFpnRPN
    roi_heads := defaultRoIHeads }

/-- Modelled from torchvision:
`torchvision.models.detection.fasterrcnn_mobilenet_v3_large_fpn`. -/
def fasterrcnn_mobilenet_v3_large_fpn (weights : TorchWeights)
    (tbl : Option Nat) : FasterRCNNModel :=
  { loaded_weights := weights
    trainable_backbone_layers := tbl
    rpn := defaultMobileRPN
    roi_heads := defaultRoIHeads }

/-- Modelled from torchvision:
`torchvision.models.detection.retinanet_resnet50_fpn_v2`. -/
def retinanet_resnet50_fpn_v2 (weights : TorchWeights) : RetinaNetModel :=
  { loaded_weights := weights
    head :=
      { classification_head :=
          { num_anchors := 9
            num_classes := 91
            cls_logits :=
              { in_channels := 256
                out_channels := 9 * 91
                kernel_size := 3
                stride := 1
                padding := 1 } } }
    score_thresh := 1/20
    nms_thresh := 1/2 }

/-- Modelled from torchvision: `torchvision.models.detection.ssd300_vgg16`. -/
def ssd300_vgg16 (weights : TorchWeights) : SSDModel :=
  { loaded_weights := weights
    anchor_generator := { num_anchors_per_location := [4, 6, 6, 6, 4, 4] }
    head :=
      { classification_head :=
          SSDClassificationHead.build [512, 1024, 512, 256, 256, 256]
            [4, 6, 6, 6, 4, 4] 91 }
    score_thresh := 1/100
    nms_thresh := 45/100 }

/-- The `tuple_sizes_list` built at the top of `set_anchor`: one singleton size
tuple per selected size flag, in the fixed order 8, 16, 32, 64, 128, 256,
512. -/
def sizesList (args : Args) : List (List Nat) :=
  (if args.size8 then [[8]] else []) ++
  (if args.size16 then [[16]] else []) ++
  (if args.size32 then [[32]] else []) ++
  (if args.size64 then [[64]] else []) ++
  (if args.size128 then [[128]] else []) ++
  (if args.size256 then [[256]] else []) ++
  (if args.size512 then [[512]] else [])

/-- The `tuple_aspect_ratios_list` built in `set_anchor`: one entry per
selected aspect-ratio flag, in the fixed order 0.5, 1.0, 2.0. -/
def aspectRatiosList (args : Args) : List Rat :=
  (if args.ar05 then [1/2] else []) ++
  (if args.ar1 then [1] else []) ++
  (if args.ar2 then [2] else [])

/-- The number of selected size flags among `size8 .. size512`. -/
def selectedSizeCount (args : Args) : Nat :=
  (if args.size8 then 1 else 0) +
  (if args.size16 then 1 else 0) +
  (if args.size32 then 1 else 0) +
  (if args.size64 then 1 else 0) +
  (if args.size128 then 1 else 0) +
  (if args.size256 then 1 else 0) +
  (if args.size512 then 1 else 0)

/-- `set_anchor` from `model.py`: builds the size and aspect-ratio tuples from
the flags, exits with status 1 (`os._exit(1)`) unless exactly 5 sizes are
selected, overwrites the old generator's `sizes`/`aspect_ratios` fields, then
replaces the generator with a fresh `AnchorGenerator` and the RPN head with
`RPNHead(256, anchor_generator.num_anchors_per_location()[0])`. -/
def set_anchor (model : FasterRCNNModel) (args : Args) :
    Except PyExit FasterRCNNModel :=
  let tuple_sizes_list := sizesList args
  let tuple_aspect_ratios_list := aspectRatiosList args
  if tuple_sizes_list.length ≠ 5 then
    -- "Number of sizes must be equal to 5" is printed, then os._exit(1)
    Except.error (PyExit.systemExit 1)
  else
    let sizes := tuple_sizes_list
    let aspect_ratios := List.replicate sizes.length tuple_aspect_ratios_list
    -- lines 45-47: the old generator's fields are overwritten in place ...
    let model :=
      { model with
        rpn :=
          { model.rpn with
            anchor_generator :=
              { model.rpn.anchor_generator with
                sizes := sizes, aspect_ratios := aspect_ratios } } }
    -- ... before the whole generator is replaced (lines 48-52)
    let anchor_generator : AnchorGenerator :=
      { sizes := sizes
        aspect_ratios := List.replicate 5 tuple_aspect_ratios_list }
    let model :=
      { model with
        rpn := { model.rpn with anchor_generator := anchor_generator } }
    Except.ok
      { model with
        rpn :=
          { model.rpn with
            head :=
              { in_channels := 256
                num_anchors :=
                  anchor_generator.num_anchors_per_location.headD 0 } } }

/-- `create_fasterrcnn` from `model.py`.  Reads `in_features` from the original
predictor, swaps the box predictor (and, with `add_authors`, the whole RoI
heads for a `CustomRoIHeads`), copies the box and RPN thresholds, and calls
`set_anchor` when `custom_anchors` is set. -/
def create_fasterrcnn (n_classes : Nat) (n_authors : Nat)
    (model : FasterRCNNModel) (args : Args) : Except PyExit FasterRCNNModel :=
  let in_features := model.roi_heads.box_predictor.cls_score_in_features
  let model :=
    if args.add_authors then
      let model :=
        { model with
          roi_heads :=
            CustomRoIHeads model.roi_heads.box_roi_pool model.roi_heads.box_head
              model.roi_heads.box_predictor args.box_fg_iou_threshold
              args.box_bg_iou_threshold
              model.roi_heads.fg_bg_sampler.batch_size_per_image
              model.roi_heads.fg_bg_sampler.positive_fraction
              model.roi_heads.box_coder.weights args.box_score_threshold
              args.box_nms_threshold args.box_detections_per_img }
      { model with
        roi_heads :=
          { model.roi_heads with
            box_predictor :=
              BoxPredictor.fastRCNNPredictorWithAuthor in_features n_classes
                n_authors } }
    else
      { model with
        roi_heads :=
          { model.roi_heads with
            box_predictor := BoxPredictor.fastRCNNPredictor in_features n_classes
            nms_thresh := args.box_nms_threshold
            score_thresh := args.box_score_threshold
            proposal_matcher :=
              { model.roi_heads.proposal_matcher with
                low_threshold := args.box_bg_iou_threshold
                high_threshold := args.box_fg_iou_threshold }
            detections_per_img := args.box_detections_per_img } }
  -- lines 121-126: RPN thresholds; note the source assigns the FG threshold to
  -- `low_threshold` and the BG threshold to `high_threshold`
  let model :=
    { model with
      rpn :=
        { model.rpn with
          nms_thresh := args.rpn_nms_threshold
          proposal_matcher :=
            { model.rpn.proposal_matcher with
              low_threshold := args.rpn_fg_iou_threshold
              high_threshold := args.rpn_bg_iou_threshold }
          score_thresh := args.rpn_score_threshold } }
  if args.custom_anchors then set_anchor model args else Except.ok model

/-- `create_retinanet` from `model.py`: loads the base model, sets
`num_classes` on the classification head, and replaces `cls_logits` with
`Conv2d(256, num_anchors * n_classes, kernel_size=3, stride=1, padding=1)`.
The `normal_`/`constant_` tensor initialisation calls are not modelled. -/
def create_retinanet (n_classes : Nat) (args : Args) : RetinaNetModel :=
  let model :=
    retinanet_resnet50_fpn_v2
      (if args.pretrained then TorchWeights.DEFAULT else TorchWeights.noWeights)
  let num_anchors := model.head.classification_head.num_anchors
  let model :=
    { model with
      head :=
        { classification_head :=
            { model.head.classification_head with num_classes := n_classes } } }
  let cls_logits : Conv2d :=
    { in_channels := 256
      out_channels := num_anchors * n_classes
      kernel_size := 3
      stride := 1
      padding := 1 }
  { model with
    head :=
      { classification_head :=
          { model.head.classification_head with cls_logits := cls_logits } } }

/-- `create_ssd300` from `model.py`: loads the base model, collects the input
channel counts of the old classification head's layers, and replaces the head
with `SSDClassificationHead(in_channels, num_anchors, n_classes)`. -/
def create_ssd300 (n_classes : Nat) (args : Args) : SSDModel :=
  let model :=
    ssd300_vgg16
      (if args.pretrained then TorchWeights.DEFAULT else TorchWeights.noWeights)
  let num_anchors := model.anchor_generator.num_anchors_per_location
  let in_channels :=
    model.head.classification_head.module_list.map fun layer => layer.in_channels
  { model with
    head :=
      { classification_head :=
          SSDClassificationHead.build in_channels num_anchors n_classes } }

/-- `create_model` from `model.py`: dispatches on `args.model` (and, for
Faster R-CNN, on `args.backbone`).  Outside the recognised values the Python
local `model` is never bound and `return model` (or the argument of
`create_fasterrcnn`) raises an unbound-local error. -/
def create_model (n_classes : Nat) (n_authors : Nat) (args : Args) :
    Except PyExit DetectionModel :=
  if args.model = "fasterrcnn" then
    if args.backbone = "resnet50" then
      (create_fasterrcnn n_classes n_authors
          (fasterrcnn_resnet50_fpn
            (if args.pretrained then TorchWeights.DEFAULT else TorchWeights.noWeights)
            args.trainable_backbone_layers)
          args).map DetectionModel.fasterrcnn
    else if args.backbone = "resnet50v2" then
      (create_fasterrcnn n_classes n_authors
          (fasterrcnn_resnet50_fpn_v2
            (if args.pretrained then TorchWeights.DEFAULT else TorchWeights.noWeights)
            args.trainable_backbone_layers)
          args).map DetectionModel.fasterrcnn
    else if args.backbone = "mobilenet" then
      (create_fasterrcnn n_classes n_authors
          (fasterrcnn_mobilenet_v3_large_fpn
            (if args.pretrained then TorchWeights.DEFAULT else TorchWeights.noWeights)
            args.trainable_backbone_layers)
          args).map DetectionModel.fasterrcnn
    else
      Except.error PyExit.unboundLocal
  else if args.model = "retinanet" then
    Except.ok (DetectionModel.retinanet (create_retinanet n_classes args))
  else if args.model = "ssd" then
    Except.ok (DetectionModel.ssd (create_ssd300 n_classes args))
  else
    Except.error PyExit.unboundLocal

/-- Proof-side closed form: the model state after lines 100-126 of
`create_fasterrcnn` (head swap and threshold copies), before the optional
`set_anchor` call.  Definitionally equal to the corresponding prefix of
`create_fasterrcnn`. -/
def wiredFasterRCNN (n_classes : Nat) (n_authors : Nat)
    (model : FasterRCNNModel) (args : Args) : FasterRCNNModel :=
  let in_features := model.roi_heads.box_predictor.cls_score_in_features
  let model :=
    if args.add_authors then
      let model :=
        { model with
          roi_heads :=
            CustomRoIHeads model.roi_heads.box_roi_pool model.roi_heads.box_head
              model.roi_heads.box_predictor args.box_fg_iou_threshold
              args.box_bg_iou_threshold
              model.roi_heads.fg_bg_sampler.batch_size_per_image
              model.roi_heads.fg_bg_sampler.positive_fraction
              model.roi_heads.box_coder.weights args.box_score_threshold
              args.box_nms_threshold args.box_detections_per_img }
      { model with
        roi_heads :=
          { model.roi_heads with
            box_predictor :=
              BoxPredictor.fastRCNNPredictorWithAuthor in_features n_classes
                n_authors } }
    else
      { model with
        roi_heads :=
          { model.roi_heads with
            box_predictor := BoxPredictor.fastRCNNPredictor in_features n_classes
            nms_thresh := args.box_nms_threshold
            score_thresh := args.box_score_threshold
            proposal_matcher :=
              { model.roi_heads.proposal_matcher with
                low_threshold := args.box_bg_iou_threshold
                high_threshold := args.box_fg_iou_threshold }
            detections_per_img := args.box_detections_per_img } }
  { model with
    rpn :=
      { model.rpn with
        nms_thresh := args.rpn_nms_threshold
        proposal_matcher :=
          { model.rpn.proposal_matcher with
            low_threshold := args.rpn_fg_iou_threshold
            high_threshold := args.rpn_bg_iou_threshold }
        score_thresh := args.rpn_score_threshold } }

theorem create_fasterrcnn_eq (n_classes n_authors : Nat)
    (model : FasterRCNNModel) (args : Args) :
    create_fasterrcnn n_classes n_authors model args =
      if args.custom_anchors then
        set_anchor (wiredFasterRCNN n_classes n_authors model args) args
      else
        Except.ok (wiredFasterRCNN n_classes n_authors model args) := rfl

theorem length_flag_singleton {α : Type} (b : Bool) (x : α) :
    (if b then [x] else []).length = if b then 1 else 0 := by
  cases b <;> rfl

theorem sizesList_length (args : Args) :
    (sizesList args).length = selectedSizeCount args := by
  simp only [sizesList, selectedSizeCount, List.length_append,
    length_flag_singleton]

theorem sizesList_mem_length (args : Args) :
    ∀ l ∈ sizesList args, l.length = 1 := by
  intro l hl
  simp only [sizesList, List.mem_append] at hl
  rcases hl with ((((((h | h) | h) | h) | h) | h) | h) <;>
    · split at h
      · simp only [List.mem_singleton] at h
        subst h
        rfl
      · simp at h

theorem set_anchor_error_eq (model : FasterRCNNModel) (args : Args)
    (h : (sizesList args).length ≠ 5) :
    set_anchor model args = Except.error (PyExit.systemExit 1) := by
  simp [set_anchor, h]

theorem set_anchor_ok_eq (model : FasterRCNNModel) (args : Args)
    (h : (sizesList args).length = 5) :
    set_anchor model args =
      Except.ok
        { model with
          rpn :=
            { model.rpn with
              anchor_generator :=
                { sizes := sizesList args
                  aspect_ratios := List.replicate 5 (aspectRatiosList args) }
              head :=
                { in_channels := 256
                  num_anchors :=
                    (AnchorGenerator.num_anchors_per_location
                        { sizes := sizesList args
                          aspect_ratios :=
                            List.replicate 5 (aspectRatiosList args) }).headD
                      0 } } } := by
  simp [set_anchor, h]

theorem set_anchor_ok_len (model m' : FasterRCNNModel) (args : Args)
    (h : set_anchor model args = Except.ok m') :
    (sizesList args).length = 5 := by
  by_contra hne
  rw [set_anchor_error_eq model args hne] at h
  simp at h

theorem set_anchor_ok_shape (model m' : FasterRCNNModel) (args : Args)
    (h : set_anchor model args = Except.ok m') :
    m' =
      { model with
        rpn :=
          { model.rpn with
            anchor_generator :=
              { sizes := sizesList args
                aspect_ratios := List.replicate 5 (aspectRatiosList args) }
            head :=
              { in_channels := 256
                num_anchors :=
                  (AnchorGenerator.num_anchors_per_location
                      { sizes := sizesList args
                        aspect_ratios :=
                          List.replicate 5 (aspectRatiosList args) }).headD
                    0 } } } := by
  have h5 := set_anchor_ok_len model m' args h
  rw [set_anchor_ok_eq model args h5] at h
  exact (Except.ok.inj h).symm

theorem num_anchors_headD (args : Args) (h : (sizesList args).length = 5) :
    (AnchorGenerator.num_anchors_per_location
        { sizes := sizesList args
          aspect_ratios := List.replicate 5 (aspectRatiosList args) }).headD 0 =
      (aspectRatiosList args).length := by
  cases hsz : sizesList args with
  | nil => rw [hsz] at h; simp at h
  | cons a rest =>
    have ha : a.length = 1 :=
      sizesList_mem_length args a (hsz ▸ List.mem_cons_self a rest)
    simp [AnchorGenerator.num_anchors_per_location, hsz, ha,
      List.replicate_succ]

theorem create_fasterrcnn_ok_roi_heads (n_classes n_authors : Nat)
    (model : FasterRCNNModel) (args : Args) (m' : FasterRCNNModel)
    (h : create_fasterrcnn n_classes n_authors model args = Except.ok m') :
    m'.roi_heads = (wiredFasterRCNN n_classes n_authors model args).roi_heads := by
  rw [create_fasterrcnn_eq] at h
  by_cases hC : args.custom_anchors = true
  · rw [if_pos hC] at h
    rw [set_anchor_ok_shape _ _ _ h]
  · rw [if_neg hC] at h
    rw [← Except.ok.inj h]

theorem create_fasterrcnn_ok_rpn (n_classes n_authors : Nat)
    (model : FasterRCNNModel) (args : Args) (m' : FasterRCNNModel)
    (h : create_fasterrcnn n_classes n_authors model args = Except.ok m') :
    m'.rpn.nms_thresh = args.rpn_nms_threshold ∧
    m'.rpn.score_thresh = args.rpn_score_threshold ∧
    m'.rpn.proposal_matcher.low_threshold = args.rpn_fg_iou_threshold ∧
    m'.rpn.proposal_matcher.high_threshold = args.rpn_bg_iou_threshold := by
  rw [create_fasterrcnn_eq] at h
  by_cases hC : args.custom_anchors = true
  · rw [if_pos hC] at h
    rw [set_anchor_ok_shape _ _ _ h]
    simp [wiredFasterRCNN]
  · rw [if_neg hC] at h
    rw [← Except.ok.inj h]
    simp [wiredFasterRCNN]

theorem create_fasterrcnn_ok_loaded_weights (n_classes n_authors : Nat)
    (model : FasterRCNNModel) (args : Args) (m' : FasterRCNNModel)
    (h : create_fasterrcnn n_classes n_authors model args = Except.ok m') :
    m'.loaded_weights = model.loaded_weights := by
  rw [create_fasterrcnn_eq] at h
  by_cases hC : args.custom_anchors = true
  · rw [if_pos hC] at h
    rw [set_anchor_ok_shape _ _ _ h]
    by_cases hA : args.add_authors = true <;> simp [wiredFasterRCNN, hA]
  · rw [if_neg hC] at h
    rw [← Except.ok.inj h]
    by_cases hA : args.add_authors = true <;> simp [wiredFasterRCNN, hA]

theorem create_fasterrcnn_ok_box (n_classes n_authors : Nat)
    (model : FasterRCNNModel) (args : Args) (m' : FasterRCNNModel)
    (h : create_fasterrcnn n_classes n_authors model args = Except.ok m') :
    m'.roi_heads.nms_thresh = args.box_nms_threshold ∧
    m'.roi_heads.score_thresh = args.box_score_threshold ∧
    m'.roi_heads.detections_per_img = args.box_detections_per_img ∧
    m'.roi_heads.proposal_matcher.high_threshold = args.box_fg_iou_threshold ∧
    m'.roi_heads.proposal_matcher.low_threshold = args.box_bg_iou_threshold := by
  rw [create_fasterrcnn_ok_roi_heads n_classes n_authors model args m' h]
  by_cases hA : args.add_authors = true <;>
    simp [wiredFasterRCNN, CustomRoIHeads, hA]

theorem create_fasterrcnn_ok_anchor (n_classes n_authors : Nat)
    (model : FasterRCNNModel) (args : Args) (m' : FasterRCNNModel)
    (hC : args.custom_anchors = true)
    (h : create_fasterrcnn n_classes n_authors model args = Except.ok m') :
    m'.rpn.anchor_generator.sizes = sizesList args ∧
    m'.rpn.anchor_generator.aspect_ratios =
      List.replicate 5 (aspectRatiosList args) := by
  rw [create_fasterrcnn_eq, if_pos hC] at h
  rw [set_anchor_ok_shape _ _ _ h]
  exact ⟨rfl, rfl⟩

theorem create_fasterrcnn_exit (n_classes n_authors : Nat)
    (model : FasterRCNNModel) (args : Args)
    (hC : args.custom_anchors = true) (h5 : (sizesList args).length ≠ 5) :
    create_fasterrcnn n_classes n_authors model args =
      Except.error (PyExit.systemExit 1) := by
  rw [create_fasterrcnn_eq, if_pos hC]
  exact set_anchor_error_eq _ _ h5

theorem create_fasterrcnn_ok_exists (n_classes n_authors : Nat)
    (model : FasterRCNNModel) (args : Args)
    (h : args.custom_anchors = false ∨ (sizesList args).length = 5) :
    ∃ m', create_fasterrcnn n_classes n_authors model args = Except.ok m' := by
  rw [create_fasterrcnn_eq]
  by_cases hC : args.custom_anchors = true
  · rcases h with h | h
    · rw [hC] at h
      simp at h
    · rw [if_pos hC]
      exact ⟨_, set_anchor_ok_eq _ _ h⟩
  · rw [if_neg hC]
    exact ⟨_, rfl⟩

theorem except_map_ok {ε α β : Type} (f : α → β) (x : Except ε α) (b : β)
    (h : x.map f = Except.ok b) : ∃ a, x = Except.ok a ∧ b = f a := by
  cases x with
  | error e => simp [Except.map] at h
  | ok a =>
    refine ⟨a, rfl, ?_⟩
    simpa [Except.map] using h.symm

theorem create_model_cases (n_classes n_authors : Nat) (args : Args)
    (m : DetectionModel)
    (h : create_model n_classes n_authors args = Except.ok m) :
    (∃ base fm, args.model = "fasterrcnn" ∧
        create_fasterrcnn n_classes n_authors base args = Except.ok fm ∧
        base.loaded_weights =
          (if args.pretrained then TorchWeights.DEFAULT
           else TorchWeights.noWeights) ∧
        m = DetectionModel.fasterrcnn fm) ∨
    (args.model = "retinanet" ∧
      m = DetectionModel.retinanet (create_retinanet n_classes args)) ∨
    (args.model = "ssd" ∧
      m = DetectionModel.ssd (create_ssd300 n_classes args)) := by
  rw [create_model] at h
  by_cases hm : args.model = "fasterrcnn"
  · rw [if_pos hm] at h
    left
    by_cases hb1 : args.backbone = "resnet50"
    · rw [if_pos hb1] at h
      obtain ⟨fm, hfm, hmeq⟩ := except_map_ok _ _ _ h
      exact ⟨_, fm, hm, hfm, rfl, hmeq⟩
    · rw [if_neg hb1] at h
      by_cases hb2 : args.backbone = "resnet50v2"
      · rw [if_pos hb2] at h
        obtain ⟨fm, hfm, hmeq⟩ := except_map_ok _ _ _ h
        exact ⟨_, fm, hm, hfm, rfl, hmeq⟩
      · rw [if_neg hb2] at h
        by_cases hb3 : args.backbone = "mobilenet"
        · rw [if_pos hb3] at h
          obtain ⟨fm, hfm, hmeq⟩ := except_map_ok _ _ _ h
          exact ⟨_, fm, hm, hfm, rfl, hmeq⟩
        · rw [if_neg hb3] at h
          simp at h
  · rw [if_neg hm] at h
    by_cases hr : args.model = "retinanet"
    · rw [if_pos hr] at h
      exact Or.inr (Or.inl ⟨hr, (Except.ok.inj h).symm⟩)
    · rw [if_neg hr] at h
      by_cases hs : args.model = "ssd"
      · rw [if_pos hs] at h
        exact Or.inr (Or.inr ⟨hs, (Except.ok.inj h).symm⟩)
      · rw [if_neg hs] at h
        simp at h

/-- A baseline configuration used by the concrete witnesses below. -/
def argsBase : Args :=
  { model := "fasterrcnn"
    backbone := "resnet50"
    pretrained := true
    trainable_backbone_layers := none
    add_authors := false
    custom_anchors := false
    box_nms_threshold := 6/10
    box_score_threshold := 1/10
    box_fg_iou_threshold := 55/100
    box_bg_iou_threshold := 45/100
    box_detections_per_img := 120
    rpn_nms_threshold := 65/100
    rpn_score_threshold := 1/100
    rpn_fg_iou_threshold := 7/10
    rpn_bg_iou_threshold := 3/10
    size8 := false
    size16 := false
    size32 := false
    size64 := false
    size128 := false
    size256 := false
    size512 := false
    ar05 := false
    ar1 := false
    ar2 := false }

/-- A concrete Faster R-CNN base model for the witnesses. -/
def frcnnBase : FasterRCNNModel :=
  fasterrcnn_resnet50_fpn TorchWeights.DEFAULT none

/-- Extracts the model from a successful result (used only by witnesses on
inputs where the run is known to succeed). -/
def okFasterRCNN (e : Except PyExit FasterRCNNModel) : FasterRCNNModel :=
  match e with
  | Except.ok m => m
  | Except.error _ => default

/-- Five size flags and one aspect-ratio flag selected. -/
def argsFiveSizes : Args :=
  { argsBase with
    custom_anchors := true
    size8 := true
    size16 := true
    size32 := true
    size64 := true
    size128 := true
    ar1 := true }

/-- Five size flags selected and no aspect-ratio flag. -/
def argsNoAspect : Args :=
  { argsBase with
    size8 := true
    size16 := true
    size32 := true
    size64 := true
    size128 := true }

/-- C5: `set_anchor` fails with exit status 1 if and only if the number of
selected size flags among size8..size512 is not exactly 5; when exactly 5 are
selected it proceeds and installs a new `AnchorGenerator` built from those 5
sizes. -/
theorem claim_C5_size_check (model : FasterRCNNModel) (args : Args) :
    (set_anchor model args = Except.error (PyExit.systemExit 1) ↔
      selectedSizeCount args ≠ 5) ∧
    (selectedSizeCount args = 5 →
      ∃ m', set_anchor model args = Except.ok m' ∧
        m'.rpn.anchor_generator.sizes = sizesList args ∧
        (sizesList args).length = 5) := by
  have hlen := sizesList_length args
  constructor
  · constructor
    · intro h hcount
      rw [set_anchor_ok_eq model args (by rw [hlen]; exact hcount)] at h
      simp at h
    · intro hcount
      exact set_anchor_error_eq model args (by rw [hlen]; exact hcount)
  · intro hcount
    refine ⟨_, set_anchor_ok_eq model args (by rw [hlen]; exact hcount), rfl, ?_⟩
    rw [hlen]
    exact hcount

/-- C5 witness: with exactly five size flags set, `set_anchor` succeeds and
installs the selected sizes. -/
theorem claim_C5_witness :
    ∃ m', set_anchor frcnnBase argsFiveSizes = Except.ok m' ∧
      m'.rpn.anchor_generator.sizes = sizesList argsFiveSizes ∧
      (sizesList argsFiveSizes).length = 5 :=
  (claim_C5_size_check frcnnBase argsFiveSizes).2 (by decide)

/-- C8: `set_anchor` validates only the size count, never the aspect-ratio
flags: with exactly 5 size flags and none of ar05, ar1, ar2 selected it
succeeds, and the installed generator's aspect-ratio entry for every feature
level is the empty tuple. -/
theorem claim_C8_no_aspect_validation (model : FasterRCNNModel) (args : Args)
    (h5 : selectedSizeCount args = 5) (h05 : args.ar05 = false)
    (h1 : args.ar1 = false) (h2 : args.ar2 = false) :
    ∃ m', set_anchor model args = Except.ok m' ∧
      m'.rpn.anchor_generator.aspect_ratios = List.replicate 5 [] := by
  have hlen : (sizesList args).length = 5 := by
    rw [sizesList_length]
    exact h5
  refine ⟨_, set_anchor_ok_eq model args hlen, ?_⟩
  simp [aspectRatiosList, h05, h1, h2]

/-- C8 witness: five size flags, no aspect-ratio flags. -/
theorem claim_C8_witness :
    ∃ m', set_anchor frcnnBase argsNoAspect = Except.ok m' ∧
      m'.rpn.anchor_generator.aspect_ratios = List.replicate 5 [] :=
  claim_C8_no_aspect_validation frcnnBase argsNoAspect (by decide) rfl rfl rfl

/-- C10: after every successful `set_anchor` call the RPN is internally
consistent: the generator has exactly 5 size tuples, its aspect-ratio tuple is
the selected aspect-ratio tuple repeated once per size level, and the new
`RPNHead` has 256 input channels and per-location anchor count
`num_anchors_per_location()[0]`, which equals the number of selected aspect
ratios. -/
theorem claim_C10_rpn_consistent (model m' : FasterRCNNModel) (args : Args)
    (h : set_anchor model args = Except.ok m') :
    m'.rpn.anchor_generator.sizes.length = 5 ∧
    m'.rpn.anchor_generator.aspect_ratios =
      List.replicate m'.rpn.anchor_generator.sizes.length
        (aspectRatiosList args) ∧
    m'.rpn.head.in_channels = 256 ∧
    m'.rpn.head.num_anchors =
      (AnchorGenerator.num_anchors_per_location m'.rpn.anchor_generator).headD
        0 ∧
    m'.rpn.head.num_anchors = (aspectRatiosList args).length := by
  have h5 := set_anchor_ok_len model m' args h
  rw [set_anchor_ok_shape model m' args h]
  refine ⟨h5, ?_, rfl, rfl, ?_⟩
  · show List.replicate 5 _ = List.replicate (sizesList args).length _
    rw [h5]
  · exact num_anchors_headD args h5

/-- C10 witness: the consistency facts at a concrete successful call. -/
theorem claim_C10_witness :
    (okFasterRCNN (set_anchor frcnnBase argsFiveSizes)).rpn.anchor_generator.sizes.length = 5 ∧
    (okFasterRCNN (set_anchor frcnnBase argsFiveSizes)).rpn.anchor_generator.aspect_ratios =
      List.replicate
        (okFasterRCNN (set_anchor frcnnBase argsFiveSizes)).rpn.anchor_generator.sizes.length
        (aspectRatiosList argsFiveSizes) ∧
    (okFasterRCNN (set_anchor frcnnBase argsFiveSizes)).rpn.head.in_channels = 256 ∧
    (okFasterRCNN (set_anchor frcnnBase argsFiveSizes)).rpn.head.num_anchors =
      (AnchorGenerator.num_anchors_per_location
          (okFasterRCNN (set_anchor frcnnBase argsFiveSizes)).rpn.anchor_generator).headD
        0 ∧
    (okFasterRCNN (set_anchor frcnnBase argsFiveSizes)).rpn.head.num_anchors =
      (aspectRatiosList argsFiveSizes).length :=
  claim_C10_rpn_consistent frcnnBase
    (okFasterRCNN (set_anchor frcnnBase argsFiveSizes)) argsFiveSizes (by rfl)

/-- C6: every model returned by `create_fasterrcnn` holds the configuration's
box-detection thresholds in its RoI heads (nms, score, detections-per-image,
and the box fg/bg IoU thresholds in the matcher's high/low fields), whichever
branch produced it: direct attribute assignment when `add_authors` is false,
the `CustomRoIHeads` constructor (tagged `customAuthor`) when it is true. -/
theorem claim_C6_box_thresholds (n_classes n_authors : Nat)
    (model : FasterRCNNModel) (args : Args) (m' : FasterRCNNModel)
    (h : create_fasterrcnn n_classes n_authors model args = Except.ok m') :
    m'.roi_heads.nms_thresh = args.box_nms_threshold ∧
    m'.roi_heads.score_thresh = args.box_score_threshold ∧
    m'.roi_heads.detections_per_img = args.box_detections_per_img ∧
    m'.roi_heads.proposal_matcher.high_threshold = args.box_fg_iou_threshold ∧
    m'.roi_heads.proposal_matcher.low_threshold = args.box_bg_iou_threshold ∧
    m'.roi_heads.kind =
      (if args.add_authors then RoIHeadsKind.customAuthor
       else model.roi_heads.kind) := by
  rw [create_fasterrcnn_ok_roi_heads n_classes n_authors model args m' h]
  by_cases hA : args.add_authors = true <;>
    simp [wiredFasterRCNN, CustomRoIHeads, hA]

/-- C6 witness: the thresholds at a concrete configuration. -/
theorem claim_C6_witness :
    (okFasterRCNN (create_fasterrcnn 10 2 frcnnBase argsBase)).roi_heads.nms_thresh =
      argsBase.box_nms_threshold ∧
    (okFasterRCNN (create_fasterrcnn 10 2 frcnnBase argsBase)).roi_heads.score_thresh =
      argsBase.box_score_threshold ∧
    (okFasterRCNN (create_fasterrcnn 10 2 frcnnBase argsBase)).roi_heads.detections_per_img =
      argsBase.box_detections_per_img ∧
    (okFasterRCNN (create_fasterrcnn 10 2 frcnnBase argsBase)).roi_heads.proposal_matcher.high_threshold =
      argsBase.box_fg_iou_threshold ∧
    (okFasterRCNN (create_fasterrcnn 10 2 frcnnBase argsBase)).roi_heads.proposal_matcher.low_threshold =
      argsBase.box_bg_iou_threshold ∧
    (okFasterRCNN (create_fasterrcnn 10 2 frcnnBase argsBase)).roi_heads.kind =
      (if argsBase.add_authors then RoIHeadsKind.customAuthor
       else frcnnBase.roi_heads.kind) :=
  claim_C6_box_thresholds 10 2 frcnnBase argsBase
    (okFasterRCNN (create_fasterrcnn 10 2 frcnnBase argsBase)) (by rfl)

/-- A configuration requesting the author branch. -/
def argsAuthors : Args := { argsBase with add_authors := true }

/-- C4: when `add_authors` is true, `create_fasterrcnn` replaces
`model.roi_heads` with a `CustomRoIHeads` built from the existing pooler, head
and predictor plus the configuration thresholds, and then replaces the box
predictor with `FastRCNNPredictorWithAuthor(in_features, n_classes,
n_authors)`, where `in_features` is the input-feature count of the original
predictor's `cls_score`. -/
theorem claim_C4_add_authors (n_classes n_authors : Nat)
    (model : FasterRCNNModel) (args : Args) (m' : FasterRCNNModel)
    (hA : args.add_authors = true)
    (h : create_fasterrcnn n_classes n_authors model args = Except.ok m') :
    m'.roi_heads =
      { CustomRoIHeads model.roi_heads.box_roi_pool model.roi_heads.box_head
          model.roi_heads.box_predictor args.box_fg_iou_threshold
          args.box_bg_iou_threshold
          model.roi_heads.fg_bg_sampler.batch_size_per_image
          model.roi_heads.fg_bg_sampler.positive_fraction
          model.roi_heads.box_coder.weights args.box_score_threshold
          args.box_nms_threshold args.box_detections_per_img with
        box_predictor :=
          BoxPredictor.fastRCNNPredictorWithAuthor
            model.roi_heads.box_predictor.cls_score_in_features n_classes
            n_authors } := by
  rw [create_fasterrcnn_ok_roi_heads n_classes n_authors model args m' h]
  simp [wiredFasterRCNN, hA]

/-- C4 witness: the author branch at a concrete configuration. -/
theorem claim_C4_witness :
    (okFasterRCNN (create_fasterrcnn 10 3 frcnnBase argsAuthors)).roi_heads =
      { CustomRoIHeads frcnnBase.roi_heads.box_roi_pool
          frcnnBase.roi_heads.box_head frcnnBase.roi_heads.box_predictor
          argsAuthors.box_fg_iou_threshold argsAuthors.box_bg_iou_threshold
          frcnnBase.roi_heads.fg_bg_sampler.batch_size_per_image
          frcnnBase.roi_heads.fg_bg_sampler.positive_fraction
          frcnnBase.roi_heads.box_coder.weights
          argsAuthors.box_score_threshold argsAuthors.box_nms_threshold
          argsAuthors.box_detections_per_img with
        box_predictor :=
          BoxPredictor.fastRCNNPredictorWithAuthor
            frcnnBase.roi_heads.box_predictor.cls_score_in_features 10 3 } :=
  claim_C4_add_authors 10 3 frcnnBase argsAuthors
    (okFasterRCNN (create_fasterrcnn 10 3 frcnnBase argsAuthors)) rfl (by rfl)

/-- C2 (code bug): on a run with `rpn_fg_iou_threshold = 7/10` and
`rpn_bg_iou_threshold = 3/10`, `create_fasterrcnn` writes the RPN foreground
threshold into `proposal_matcher.low_threshold` and the background threshold
into `high_threshold` (src/model.py lines 124-125) — the opposite of the
mapping it uses for the box-head matcher on the same run (lines 116-117). -/
theorem claim_C2_rpn_matcher_swapped :
    ∃ m', create_fasterrcnn 10 2 frcnnBase argsBase = Except.ok m' ∧
      argsBase.rpn_fg_iou_threshold = 7/10 ∧
      argsBase.rpn_bg_iou_threshold = 3/10 ∧
      m'.rpn.proposal_matcher.low_threshold = 7/10 ∧
      m'.rpn.proposal_matcher.high_threshold = 3/10 ∧
      m'.roi_heads.proposal_matcher.high_threshold =
        argsBase.box_fg_iou_threshold ∧
      m'.roi_heads.proposal_matcher.low_threshold =
        argsBase.box_bg_iou_threshold :=
  ⟨_, rfl, rfl, rfl, rfl, rfl, rfl, rfl⟩

theorem create_fasterrcnn_num_classes (n_classes n_authors : Nat)
    (model : FasterRCNNModel) (args : Args) (m' : FasterRCNNModel)
    (h : create_fasterrcnn n_classes n_authors model args = Except.ok m') :
    m'.roi_heads.box_predictor.num_classes = n_classes := by
  rw [create_fasterrcnn_ok_roi_heads n_classes n_authors model args m' h]
  by_cases hA : args.add_authors = true <;>
    simp [wiredFasterRCNN, CustomRoIHeads, hA, BoxPredictor.num_classes]

/-- C1: for every supported architecture choice, `create_model` replaces the
final prediction head with one sized to the user-specified class count: for
fasterrcnn the box predictor is built with `n_classes`; for retinanet the
classification head's `num_classes` is set to `n_classes` and its `cls_logits`
convolution is rebuilt with `num_anchors * n_classes` output channels; for ssd
the classification head is an `SSDClassificationHead` built with
`n_classes`. -/
theorem claim_C1_head_sized (n_classes n_authors : Nat) (args : Args)
    (m : DetectionModel)
    (h : create_model n_classes n_authors args = Except.ok m) :
    (∀ fm, m = DetectionModel.fasterrcnn fm →
      fm.roi_heads.box_predictor.num_classes = n_classes) ∧
    (∀ rm, m = DetectionModel.retinanet rm →
      rm.head.classification_head.num_classes = n_classes ∧
      rm.head.classification_head.cls_logits.out_channels =
        rm.head.classification_head.num_anchors * n_classes) ∧
    (∀ sm, m = DetectionModel.ssd sm →
      sm.head.classification_head.num_classes = n_classes) := by
  rcases create_model_cases n_classes n_authors args m h with
    ⟨base, fm, hmod, hcf, hw, rfl⟩ | ⟨hmod, rfl⟩ | ⟨hmod, rfl⟩
  · refine ⟨?_, ?_, ?_⟩
    · intro fm' hfm'
      injection hfm' with hh
      subst hh
      exact create_fasterrcnn_num_classes n_classes n_authors base args fm hcf
    · intro rm hrm
      exact absurd hrm (by simp)
    · intro sm hsm
      exact absurd hsm (by simp)
  · refine ⟨?_, ?_, ?_⟩
    · intro fm hfm
      exact absurd hfm (by simp)
    · intro rm hrm
      injection hrm with hh
      subst hh
      constructor
      · simp [create_retinanet, retinanet_resnet50_fpn_v2]
      · simp [create_retinanet, retinanet_resnet50_fpn_v2]
    · intro sm hsm
      exact absurd hsm (by simp)
  · refine ⟨?_, ?_, ?_⟩
    · intro fm hfm
      exact absurd hfm (by simp)
    · intro rm hrm
      exact absurd hrm (by simp)
    · intro sm hsm
      injection hsm with hh
      subst hh
      simp [create_ssd300, ssd300_vgg16, SSDClassificationHead.build]

/-- A configuration selecting the ssd architecture. -/
def argsSSD : Args := { argsBase with model := "ssd" }

/-- C1 witness: the ssd head at a concrete configuration. -/
theorem claim_C1_witness :
    (create_ssd300 10 argsSSD).head.classification_head.num_classes = 10 :=
  (claim_C1_head_sized 10 2 argsSSD
      (DetectionModel.ssd (create_ssd300 10 argsSSD)) (by rfl)).2.2
    (create_ssd300 10 argsSSD) rfl

/-- C7: for every architecture and backbone choice, the base torchvision model
behind the model `create_model` returns was loaded with `weights='DEFAULT'`
exactly when `args.pretrained` is true, and with `weights=None` otherwise. -/
theorem claim_C7_pretrained_weights (n_classes n_authors : Nat) (args : Args)
    (m : DetectionModel)
    (h : create_model n_classes n_authors args = Except.ok m) :
    m.loaded_weights =
      (if args.pretrained then TorchWeights.DEFAULT
       else TorchWeights.noWeights) := by
  rcases create_model_cases n_classes n_authors args m h with
    ⟨base, fm, hmod, hcf, hw, rfl⟩ | ⟨hmod, rfl⟩ | ⟨hmod, rfl⟩
  · show fm.loaded_weights = _
    rw [create_fasterrcnn_ok_loaded_weights n_classes n_authors base args fm hcf,
      hw]
  · simp [DetectionModel.loaded_weights, create_retinanet,
      retinanet_resnet50_fpn_v2]
  · simp [DetectionModel.loaded_weights, create_ssd300, ssd300_vgg16]

/-- A configuration selecting the retinanet architecture. -/
def argsRetina : Args := { argsBase with model := "retinanet" }

/-- C7 witness: a pretrained retinanet run records `DEFAULT` weights. -/
theorem claim_C7_witness :
    (DetectionModel.retinanet (create_retinanet 10 argsRetina)).loaded_weights =
      (if argsRetina.pretrained then TorchWeights.DEFAULT
       else TorchWeights.noWeights) :=
  claim_C7_pretrained_weights 10 2 argsRetina
    (DetectionModel.retinanet (create_retinanet 10 argsRetina)) (by rfl)

/-- Two retinanet configurations that differ in their threshold and anchor
flags. -/
def argsRetinaA : Args :=
  { argsBase with
    model := "retinanet"
    box_nms_threshold := 42
    box_score_threshold := 42
    rpn_nms_threshold := 42
    custom_anchors := true
    size8 := true
    size16 := true
    size32 := true
    size64 := true
    size128 := true
    ar1 := true }

def argsRetinaB : Args :=
  { argsBase with
    model := "retinanet"
    box_nms_threshold := 43
    box_score_threshold := 43
    rpn_nms_threshold := 43 }

/-- C3 counterexample: two retinanet configurations that differ in their
detection thresholds and anchor flags (one even sets `custom_anchors` with a
full anchor menu) yield, through `create_model`, identical models — so neither
the threshold values nor the anchor geometry carried by `args` can be present
in the returned model, contradicting the claim for the retinanet
architecture. -/
theorem claim_C3_counterexample :
    argsRetinaA.box_nms_threshold ≠ argsRetinaB.box_nms_threshold ∧
    argsRetinaA.custom_anchors ≠ argsRetinaB.custom_anchors ∧
    argsRetinaA.model = "retinanet" ∧ argsRetinaB.model = "retinanet" ∧
    create_model 10 2 argsRetinaA = create_model 10 2 argsRetinaB :=
  ⟨by decide, by decide, rfl, rfl, rfl⟩

/-- Resets every detection-threshold and anchor-geometry flag of a
configuration (used to state that a code path never reads them). -/
def eraseTuning (args : Args) : Args :=
  { args with
    box_nms_threshold := 0
    box_score_threshold := 0
    box_fg_iou_threshold := 0
    box_bg_iou_threshold := 0
    box_detections_per_img := 0
    rpn_nms_threshold := 0
    rpn_score_threshold := 0
    rpn_fg_iou_threshold := 0
    rpn_bg_iou_threshold := 0
    custom_anchors := false
    size8 := false
    size16 := false
    size32 := false
    size64 := false
    size128 := false
    size256 := false
    size512 := false
    ar05 := false
    ar1 := false
    ar2 := false }

/-- C3 (amended): only the fasterrcnn path reflects the configuration's
threshold flags and, when `custom_anchors` is set, the anchor geometry; the
retinanet and ssd paths of `create_model` are independent of every threshold
and anchor flag. -/
theorem claim_C3_amended (n_classes n_authors : Nat) (args : Args) :
    ((args.model = "retinanet" ∨ args.model = "ssd") →
      create_model n_classes n_authors args =
        create_model n_classes n_authors (eraseTuning args)) ∧
    (∀ fm,
      create_model n_classes n_authors args =
          Except.ok (DetectionModel.fasterrcnn fm) →
      fm.rpn.nms_thresh = args.rpn_nms_threshold ∧
      fm.rpn.score_thresh = args.rpn_score_threshold ∧
      fm.rpn.proposal_matcher.low_threshold = args.rpn_fg_iou_threshold ∧
      fm.rpn.proposal_matcher.high_threshold = args.rpn_bg_iou_threshold ∧
      fm.roi_heads.nms_thresh = args.box_nms_threshold ∧
      fm.roi_heads.score_thresh = args.box_score_threshold ∧
      (args.custom_anchors = true →
        fm.rpn.anchor_generator.sizes = sizesList args ∧
        fm.rpn.anchor_generator.aspect_ratios =
          List.replicate 5 (aspectRatiosList args))) := by
  constructor
  · rintro (hmod | hmod) <;>
      simp [create_model, hmod, eraseTuning, create_retinanet, create_ssd300]
  · intro fm h
    rcases create_model_cases n_classes n_authors args
        (DetectionModel.fasterrcnn fm) h with
      ⟨base, fm', hmod, hcf, hw, heq⟩ | ⟨hmod, heq⟩ | ⟨hmod, heq⟩
    · injection heq with hh
      subst hh
      obtain ⟨h1, h2, h3, h4⟩ :=
        create_fasterrcnn_ok_rpn n_classes n_authors base args fm hcf
      obtain ⟨h5, h6, _, _, _⟩ :=
        create_fasterrcnn_ok_box n_classes n_authors base args fm hcf
      refine ⟨h1, h2, h3, h4, h5, h6, ?_⟩
      intro hC
      exact create_fasterrcnn_ok_anchor n_classes n_authors base args fm hC hcf
    · exact absurd heq (by simp)
    · exact absurd heq (by simp)

/-- C3 witness: for a concrete retinanet configuration, erasing every
threshold and anchor flag leaves the result of `create_model` unchanged. -/
theorem claim_C3_witness :
    create_model 10 2 argsRetina = create_model 10 2 (eraseTuning argsRetina) :=
  (claim_C3_amended 10 2 argsRetina).1 (Or.inl rfl)


/-- A configuration inside the claimed enumeration that nevertheless does not
return a model: `custom_anchors` is set with zero size flags. -/
def argsBadAnchors : Args := { argsBase with custom_anchors := true }

/-- C9 counterexample: with `args.model = "fasterrcnn"` and
`args.backbone = "resnet50"` — inside the claimed precondition —
`create_model` does not return a constructed model: `custom_anchors` is set
with no size flags, so `set_anchor` exits the process with status 1. -/
theorem claim_C9_counterexample :
    argsBadAnchors.model = "fasterrcnn" ∧
    argsBadAnchors.backbone = "resnet50" ∧
    create_model 10 2 argsBadAnchors = Except.error (PyExit.systemExit 1) :=
  ⟨rfl, rfl, rfl⟩

/-- C9 (amended): under the precondition that `args.model` is one of
fasterrcnn, retinanet, ssd (and, when fasterrcnn, `args.backbone` is one of
resnet50, resnet50v2, mobilenet), `create_model` returns a constructed model —
unless `args.custom_anchors` is set with a selected-size count different from
5, in which case it exits with status 1; for any other value of `args.model`
or `args.backbone` the local variable `model` is never bound and the function
fails with an unbound-variable error. -/
theorem claim_C9_amended (n_classes n_authors : Nat) (args : Args) :
    ((args.model = "retinanet" ∨ args.model = "ssd") →
      ∃ m, create_model n_classes n_authors args = Except.ok m) ∧
    (args.model = "fasterrcnn" →
      (args.backbone = "resnet50" ∨ args.backbone = "resnet50v2" ∨
          args.backbone = "mobilenet") →
      (if args.custom_anchors = true ∧ selectedSizeCount args ≠ 5 then
        create_model n_classes n_authors args =
          Except.error (PyExit.systemExit 1)
      else ∃ m, create_model n_classes n_authors args = Except.ok m)) ∧
    (args.model ≠ "fasterrcnn" → args.model ≠ "retinanet" →
      args.model ≠ "ssd" →
      create_model n_classes n_authors args =
        Except.error PyExit.unboundLocal) ∧
    (args.model = "fasterrcnn" → args.backbone ≠ "resnet50" →
      args.backbone ≠ "resnet50v2" → args.backbone ≠ "mobilenet" →
      create_model n_classes n_authors args =
        Except.error PyExit.unboundLocal) := by
  have key : ∀ base : FasterRCNNModel,
      (if args.custom_anchors = true ∧ selectedSizeCount args ≠ 5 then
        (create_fasterrcnn n_classes n_authors base args).map
            DetectionModel.fasterrcnn =
          Except.error (PyExit.systemExit 1)
      else ∃ m,
        (create_fasterrcnn n_classes n_authors base args).map
            DetectionModel.fasterrcnn =
          Except.ok m) := by
    intro base
    split
    · rename_i hcond
      rw [create_fasterrcnn_exit n_classes n_authors base args hcond.1
          (by rw [sizesList_length]; exact hcond.2)]
      rfl
    · rename_i hcond
      rw [not_and_or] at hcond
      have hor : args.custom_anchors = false ∨ (sizesList args).length = 5 := by
        rcases hcond with hc | hc
        · exact Or.inl (by simpa using hc)
        · exact Or.inr (by rw [sizesList_length]; simpa using hc)
      obtain ⟨m', hm'⟩ :=
        create_fasterrcnn_ok_exists n_classes n_authors base args hor
      exact ⟨DetectionModel.fasterrcnn m', by rw [hm']; rfl⟩
  refine ⟨?_, ?_, ?_, ?_⟩
  · rintro (hmod | hmod)
    · exact ⟨DetectionModel.retinanet (create_retinanet n_classes args),
        by simp [create_model, hmod]⟩
    · exact ⟨DetectionModel.ssd (create_ssd300 n_classes args),
        by simp [create_model, hmod]⟩
  · intro hmod hb
    rcases hb with hb | hb | hb
    · have h2 : create_model n_classes n_authors args =
          (create_fasterrcnn n_classes n_authors
              (fasterrcnn_resnet50_fpn
                (if args.pretrained then TorchWeights.DEFAULT
                 else TorchWeights.noWeights)
                args.trainable_backbone_layers)
              args).map DetectionModel.fasterrcnn := by
        simp [create_model, hmod, hb]
      rw [h2]
      exact key _
    · have h2 : create_model n_classes n_authors args =
          (create_fasterrcnn n_classes n_authors
              (fasterrcnn_resnet50_fpn_v2
                (if args.pretrained then TorchWeights.DEFAULT
                 else TorchWeights.noWeights)
                args.trainable_backbone_layers)
              args).map DetectionModel.fasterrcnn := by
        simp [create_model, hmod, hb]
      rw [h2]
      exact key _
    · have h2 : create_model n_classes n_authors args =
          (create_fasterrcnn n_classes n_authors
              (fasterrcnn_mobilenet_v3_large_fpn
                (if args.pretrained then TorchWeights.DEFAULT
                 else TorchWeights.noWeights)
                args.trainable_backbone_layers)
              args).map DetectionModel.fasterrcnn := by
        simp [create_model, hmod, hb]
      rw [h2]
      exact key _
  · intro h1 h2 h3
    simp [create_model, h1, h2, h3]
  · intro hmod hb1 hb2 hb3
    simp [create_model, hmod, hb1, hb2, hb3]

/-- C9 witness: inside the enumeration with `custom_anchors` unset the call
returns a model. -/
theorem claim_C9_witness :
    ∃ m, create_model 10 2 argsSSD = Except.ok m :=
  (claim_C9_amended 10 2 argsSSD).1 (Or.inr rfl)
